import Mathlib

/-!
Verification development for the TradeLocker REST facade
(`app/main.py`, `app/brokers/base.py`, `app/brokers/tradelocker.py`).

The Python code is shallowly embedded: Python scalar values and dicts become
an inductive `PyVal` and association lists `PyDict` with Python `dict.get` /
`in` / truthiness semantics; pandas DataFrame rows become Lean structures or
lists of records; upstream SDK calls and the wall clock become explicit
parameters (`Except` for calls that may raise, a `String` for the timestamp
read).  Numbers are modelled as exact rationals `ℚ`.
-/

namespace TL

/-- A Python value as it appears in the service's dicts: strings, numbers
(modelled exactly as `ℚ`), booleans, `None`, lists and nested dicts. -/
inductive PyVal where
  | str : String → PyVal
  | num : ℚ → PyVal
  | bool : Bool → PyVal
  | none : PyVal
  | list : List PyVal → PyVal
  | dict : List (String × PyVal) → PyVal
deriving Repr

/-- A Python dict with string keys, as an association list (first binding of a
key is the one visible, matching a dict in which each key occurs once). -/
abbrev PyDict := List (String × PyVal)

/-- Lookup of a key: `d[k]` when the key is present, `Option.none` when absent
(a bare `d[k]` on an absent key raises `KeyError` in Python; theorems about
code that uses bare indexing carry presence hypotheses). -/
def PyDict.get? (d : PyDict) (k : String) : Option PyVal :=
  (d.find? (fun p => p.1 == k)).map Prod.snd

/-- Python `k in d`. -/
def PyDict.containsKey (d : PyDict) (k : String) : Bool :=
  (PyDict.get? d k).isSome

/-- Python `d.get(k, default)`: the stored value when the key is present
(even when that value is `None`), otherwise the default. -/
def PyDict.getD (d : PyDict) (k : String) (default : PyVal) : PyVal :=
  (PyDict.get? d k).getD default

/-- Python `d.get(k)` (default `None`). -/
def PyDict.getN (d : PyDict) (k : String) : PyVal :=
  PyDict.getD d k PyVal.none

/-- Python truthiness of a value: `None`, `0`, `""`, `[]`, `{}` are falsy. -/
def PyVal.truthy : PyVal → Bool
  | .str s => !(s == "")
  | .num q => !(q == 0)
  | .bool b => b
  | .none => false
  | .list l => !l.isEmpty
  | .dict d => !d.isEmpty

/-- Python `v == s` for a string literal `s`: true exactly when `v` is the
equal string (Python equality across types is `False`, not an error). -/
def PyVal.eqStr (v : PyVal) (s : String) : Bool :=
  match v with
  | .str t => t == s
  | _ => false

/-! ## Account metrics (`TradeLockerService.get_account_details`, main.py 279-347)

A position row from `get_all_positions` as the metrics loop sees it: the
loop only asks whether the columns `qty`, `avgPrice`, `unrealizedPl` are
present (`'qty' in position`) and uses their numeric values, so a row is a
record of three optional rationals. -/
structure Position where
  qty : Option ℚ
  avgPrice : Option ℚ
  unrealizedPl : Option ℚ
deriving Repr, DecidableEq

/-- One step of the loop at main.py 299-307: when both `qty` and `avgPrice`
are present, add `abs(qty * avgPrice)` to the running total and, when
`unrealizedPl` is also present, add it to the running unrealized P&L. -/
def accountStep (acc : ℚ × ℚ) (p : Position) : ℚ × ℚ :=
  match p.qty, p.avgPrice with
  | some q, some a =>
      let value := |q * a|
      match p.unrealizedPl with
      | some u => (acc.1 + value, acc.2 + u)
      | Option.none => (acc.1 + value, acc.2)
  | _, _ => acc

/-- The loop over all position rows starting from `(0, 0)`
(`total_positions_value`, `unrealized_pnl`). -/
def accountTotals (ps : List Position) : ℚ × ℚ :=
  ps.foldl accountStep (0, 0)

/-- Spec-side sum: Σ |qty × avgPrice| over positions having both fields. -/
def specTotalValue (ps : List Position) : ℚ :=
  (ps.filterMap (fun p =>
    match p.qty, p.avgPrice with
    | some q, some a => some |q * a|
    | _, _ => Option.none)).sum

/-- Spec-side sum of unrealized P&L, over the rows the code actually visits:
those having `qty` and `avgPrice` (the `unrealizedPl` check is nested inside
the `qty`/`avgPrice` presence check at main.py 301-307). -/
def specUnrealized (ps : List Position) : ℚ :=
  (ps.filterMap (fun p =>
    match p.qty, p.avgPrice, p.unrealizedPl with
    | some _, some _, some u => some u
    | _, _, _ => Option.none)).sum

/-- The derived numeric fields of the account-details response. -/
structure AccountMetrics where
  balance : ℚ
  equity : ℚ
  margin_used : ℚ
  margin_available : ℚ
  margin_level : ℚ
  total_positions_value : ℚ
  unrealized_pnl : ℚ
deriving Repr, DecidableEq

/-- main.py 296-330: the metric derivation from the first account's balance
and the open positions. -/
def deriveMetrics (balance : ℚ) (ps : List Position) : AccountMetrics :=
  let t := accountTotals ps
  let total_positions_value := t.1
  let unrealized_pnl := t.2
  let equity := balance + unrealized_pnl
  let margin_used := total_positions_value * (0.01 : ℚ)
  let margin_available := balance - margin_used
  let margin_level := if margin_used > 0 then equity / margin_used * 100 else 0
  ⟨balance, equity, margin_used, margin_available, margin_level,
    total_positions_value, unrealized_pnl⟩

lemma accountTotals_go (ps : List Position) (a b : ℚ) :
    ps.foldl accountStep (a, b) = (a + specTotalValue ps, b + specUnrealized ps) := by
  induction ps generalizing a b with
  | nil => simp [specTotalValue, specUnrealized]
  | cons p ps ih =>
      rcases p with ⟨q, ap, u⟩
      rcases q with _ | q <;> rcases ap with _ | ap <;> rcases u with _ | u <;>
        simp [accountStep, specTotalValue, specUnrealized, ih, add_assoc]

lemma accountTotals_eq (ps : List Position) :
    accountTotals ps = (specTotalValue ps, specUnrealized ps) := by
  simpa using accountTotals_go ps 0 0

/-- C1: for every balance and position list, the derived metrics satisfy the
claimed formulas, and the concrete example balance=1000 with one position
qty=2, avgPrice=100, unrealizedPl=5 yields the claimed numbers. -/
theorem C1_account_metrics :
    (∀ (b : ℚ) (ps : List Position),
      (deriveMetrics b ps).total_positions_value = specTotalValue ps ∧
      (deriveMetrics b ps).margin_used = specTotalValue ps * (0.01 : ℚ) ∧
      (deriveMetrics b ps).equity = b + specUnrealized ps ∧
      (deriveMetrics b ps).margin_available = b - (deriveMetrics b ps).margin_used) ∧
    deriveMetrics 1000 [⟨some 2, some 100, some 5⟩] =
      ⟨1000, 1005, 2, 998, 50250, 200, 5⟩ := by
  constructor
  · intro b ps
    simp [deriveMetrics, accountTotals_eq]
  · simp [deriveMetrics, accountTotals, accountStep]
    norm_num

/-- C2: margin_level equals equity / margin_used × 100 exactly when
margin_used > 0, and is 0 when margin_used = 0; the division is evaluated
only under the positivity guard (in the model, the guarded branch). -/
theorem C2_margin_level_guard (b : ℚ) (ps : List Position) :
    ((deriveMetrics b ps).margin_used > 0 →
      (deriveMetrics b ps).margin_level =
        (deriveMetrics b ps).equity / (deriveMetrics b ps).margin_used * 100) ∧
    ((deriveMetrics b ps).margin_used = 0 → (deriveMetrics b ps).margin_level = 0) := by
  constructor
  · intro h
    simp only [deriveMetrics] at h ⊢
    rw [if_pos h]
  · intro h
    simp only [deriveMetrics] at h ⊢
    rw [if_neg]
    rw [h]
    exact lt_irrefl 0

/-- Witness for C2: at balance 5 and no positions, margin_used is 0 and
margin_level is 0; at the C1 example, margin_used is positive and the
margin_level equals the division. -/
theorem C2_margin_level_guard_witness :
    (deriveMetrics 5 []).margin_level = 0 ∧
    (deriveMetrics 1000 [⟨some 2, some 100, some 5⟩]).margin_level =
      (deriveMetrics 1000 [⟨some 2, some 100, some 5⟩]).equity /
        (deriveMetrics 1000 [⟨some 2, some 100, some 5⟩]).margin_used * 100 := by
  constructor
  · exact (C2_margin_level_guard 5 []).2 (by norm_num [deriveMetrics, accountTotals])
  · exact (C2_margin_level_guard 1000 [⟨some 2, some 100, some 5⟩]).1
      (by norm_num [deriveMetrics, accountTotals, accountStep])

/-! ## Order validation (`BaseBroker.validate_order_data`, base.py 80-114) -/

def requiredFields : List String := ["symbol", "order_type", "side", "quantity"]

def validOrderTypes : List String := ["market", "limit", "stop", "stop_limit"]

def validSides : List String := ["buy", "sell"]

/-- Python `v <= 0` for the quantity check: a number compares numerically
(a Python bool is the int 0 or 1).  A value of any other type would raise
`TypeError` in Python; theorems about the quantity step therefore carry a
numeric-quantity hypothesis. -/
def pyLeZero (v : PyVal) : Bool :=
  match v with
  | .num q => q ≤ 0
  | .bool b => !b
  | _ => false

/-- base.py 80-114: collect the absent required fields, then check order_type
against the valid set, then side, then quantity > 0; first failure returns a
success=false dict with the corresponding error, otherwise success=true with
the data unchanged. -/
def validateOrderData (d : PyDict) : PyDict :=
  let missing := requiredFields.filter (fun f => !(PyDict.containsKey d f))
  if !missing.isEmpty then
    [("success", PyVal.bool false),
     ("error", PyVal.str ("Missing required fields: " ++ String.intercalate ", " missing))]
  else if !(validOrderTypes.any (fun t => PyVal.eqStr (PyDict.getN d "order_type") t)) then
    [("success", PyVal.bool false),
     ("error", PyVal.str ("Invalid order_type. Must be one of: " ++
       String.intercalate ", " validOrderTypes))]
  else if !(validSides.any (fun t => PyVal.eqStr (PyDict.getN d "side") t)) then
    [("success", PyVal.bool false),
     ("error", PyVal.str ("Invalid side. Must be one of: " ++
       String.intercalate ", " validSides))]
  else if pyLeZero (PyDict.getD d "quantity" (PyVal.num 0)) then
    [("success", PyVal.bool false),
     ("error", PyVal.str "Quantity must be greater than 0")]
  else
    [("success", PyVal.bool true), ("data", PyVal.dict d)]

/-- C3: order validation is exactly the four-step procedure in order —
missing required fields are reported exactly and first; then an order_type
outside the valid set, then a side outside the valid set, then a
non-positive quantity; otherwise success with the data unchanged. -/
theorem C3_validate_order_data (d : PyDict) (q : ℚ) :
    (requiredFields.filter (fun f => !(PyDict.containsKey d f)) ≠ [] →
      validateOrderData d =
        [("success", PyVal.bool false),
         ("error", PyVal.str ("Missing required fields: " ++ String.intercalate ", "
           (requiredFields.filter (fun f => !(PyDict.containsKey d f)))))]) ∧
    (requiredFields.filter (fun f => !(PyDict.containsKey d f)) = [] →
      (validOrderTypes.any (fun t => PyVal.eqStr (PyDict.getN d "order_type") t)) = false →
      validateOrderData d =
        [("success", PyVal.bool false),
         ("error", PyVal.str "Invalid order_type. Must be one of: market, limit, stop, stop_limit")]) ∧
    (requiredFields.filter (fun f => !(PyDict.containsKey d f)) = [] →
      (validOrderTypes.any (fun t => PyVal.eqStr (PyDict.getN d "order_type") t)) = true →
      (validSides.any (fun t => PyVal.eqStr (PyDict.getN d "side") t)) = false →
      validateOrderData d =
        [("success", PyVal.bool false),
         ("error", PyVal.str "Invalid side. Must be one of: buy, sell")]) ∧
    (requiredFields.filter (fun f => !(PyDict.containsKey d f)) = [] →
      (validOrderTypes.any (fun t => PyVal.eqStr (PyDict.getN d "order_type") t)) = true →
      (validSides.any (fun t => PyVal.eqStr (PyDict.getN d "side") t)) = true →
      PyDict.get? d "quantity" = some (PyVal.num q) → q ≤ 0 →
      validateOrderData d =
        [("success", PyVal.bool false),
         ("error", PyVal.str "Quantity must be greater than 0")]) ∧
    (requiredFields.filter (fun f => !(PyDict.containsKey d f)) = [] →
      (validOrderTypes.any (fun t => PyVal.eqStr (PyDict.getN d "order_type") t)) = true →
      (validSides.any (fun t => PyVal.eqStr (PyDict.getN d "side") t)) = true →
      PyDict.get? d "quantity" = some (PyVal.num q) → 0 < q →
      validateOrderData d = [("success", PyVal.bool true), ("data", PyVal.dict d)]) := by
  refine ⟨?_, ?_, ?_, ?_, ?_⟩
  · intro h
    have h0 : (requiredFields.filter (fun f => !(PyDict.containsKey d f))).isEmpty = false := by
      simpa [List.isEmpty_iff] using h
    simp [validateOrderData, h0]
  · intro hm ht
    simp [validOrderTypes] at ht
    simp [validateOrderData, hm, ht, validOrderTypes]
    rfl
  · intro hm ht hs
    simp [validSides] at hs
    simp [validateOrderData, hm, ht, hs, validSides]
    rfl
  · intro hm ht hs hq hle
    simp [validateOrderData, hm, ht, hs, PyDict.getD, hq, pyLeZero, hle]
  · intro hm ht hs hq hpos
    have hle : ¬ q ≤ 0 := not_le.mpr hpos
    simp [validateOrderData, hm, ht, hs, PyDict.getD, hq, pyLeZero, hle]

/-- Witness for C3: each of the five branches at a concrete order dict. -/
theorem C3_validate_order_data_witness :
    validateOrderData [("symbol", PyVal.str "BTCUSD.TTF")] =
      [("success", PyVal.bool false),
       ("error", PyVal.str "Missing required fields: order_type, side, quantity")] ∧
    validateOrderData
      [("symbol", PyVal.str "BTCUSD.TTF"), ("order_type", PyVal.str "bogus"),
       ("side", PyVal.str "buy"), ("quantity", PyVal.num 1)] =
      [("success", PyVal.bool false),
       ("error", PyVal.str "Invalid order_type. Must be one of: market, limit, stop, stop_limit")] ∧
    validateOrderData
      [("symbol", PyVal.str "BTCUSD.TTF"), ("order_type", PyVal.str "market"),
       ("side", PyVal.str "hold"), ("quantity", PyVal.num 1)] =
      [("success", PyVal.bool false),
       ("error", PyVal.str "Invalid side. Must be one of: buy, sell")] ∧
    validateOrderData
      [("symbol", PyVal.str "BTCUSD.TTF"), ("order_type", PyVal.str "market"),
       ("side", PyVal.str "buy"), ("quantity", PyVal.num (-1))] =
      [("success", PyVal.bool false),
       ("error", PyVal.str "Quantity must be greater than 0")] ∧
    validateOrderData
      [("symbol", PyVal.str "BTCUSD.TTF"), ("order_type", PyVal.str "market"),
       ("side", PyVal.str "buy"), ("quantity", PyVal.num 1)] =
      [("success", PyVal.bool true),
       ("data", PyVal.dict
         [("symbol", PyVal.str "BTCUSD.TTF"), ("order_type", PyVal.str "market"),
          ("side", PyVal.str "buy"), ("quantity", PyVal.num 1)])] := by
  refine ⟨?_, ?_, ?_, ?_, ?_⟩
  · exact (C3_validate_order_data [("symbol", PyVal.str "BTCUSD.TTF")] 1).1 (by decide)
  · exact (C3_validate_order_data _ 1).2.1 (by decide) (by decide)
  · exact (C3_validate_order_data _ 1).2.2.1 (by decide) (by decide) (by decide)
  · exact (C3_validate_order_data _ (-1)).2.2.2.1 (by decide) (by decide) (by decide)
      (by rfl) (by norm_num)
  · exact (C3_validate_order_data _ 1).2.2.2.2 (by decide) (by decide) (by decide)
      (by rfl) (by norm_num)

/-! ## Order creation (`TradeLockerService.create_order`, main.py 166-234) -/

/-- An instrument row of `get_all_instruments` as `create_order` uses it:
its `name` column, its optional `tradableInstrumentId` column (main.py 177
falls back to `id` when that column is absent) and its `id` column. -/
structure Instrument where
  name : String
  tradableInstrumentId : Option Int
  id : Int
deriving Repr, DecidableEq

/-- main.py 170-171 and 173: `instruments[instruments['name'] == symbol]`
then `.iloc[0]` — the first row whose name equals the requested value
(pandas equality of a cell with a non-string request is plain inequality,
never an error). -/
def resolveInstrumentVal (catalog : List Instrument) (v : PyVal) : Option Instrument :=
  (catalog.filter (fun i => PyVal.eqStr v i.name)).head?

/-- main.py 177: `tradableInstrumentId` when that column is present, else `id`. -/
def instrumentKey (i : Instrument) : Int :=
  i.tradableInstrumentId.getD i.id

/-- main.py 124-130 (`_error_response`): the standardized error envelope. -/
def errorResponse (ts err : String) : PyDict :=
  [("success", PyVal.bool false), ("error", PyVal.str err), ("timestamp", PyVal.str ts)]

/-- Python `str(v)` restricted to the shapes the service prints (only the
string case is exercised by the theorems below). -/
def PyVal.pyStr : PyVal → String
  | .str s => s
  | .num q => toString q
  | .bool b => if b then "True" else "False"
  | .none => "None"
  | .list _ => "<list>"
  | .dict _ => "<dict>"

/-- The broker-facing parameter set (the `order_params` dict of main.py
180-219): its keys are statically known, so it is a record whose optional
keys are `Option` fields — `Option.none` means the key is absent from the
dict passed to `tl_api.create_order`. -/
structure OrderParams where
  instrument_id : Int
  quantity : PyVal
  side : PyVal
  type_ : PyVal
  validity : PyVal
  price : Option PyVal
  stop_price : Option PyVal
  stop_loss : Option PyVal
  stop_loss_type : Option PyVal
  take_profit : Option PyVal
  take_profit_type : Option PyVal
  trailing_distance : Option PyVal
deriving Repr

/-- main.py 180-219: build `order_params` from `order_data`.  Bare accesses
(`order_data['quantity']` etc.) assume the key is present (the HTTP layer
always supplies all keys; an absent key would raise `KeyError`, caught by
the surrounding handler) and are modelled by `getN`; every optional field is
guarded by Python truthiness of `order_data.get(key)` exactly as in the
source. -/
def buildOrderParams (instrumentId : Int) (d : PyDict) : OrderParams :=
  let orderType := PyDict.getN d "order_type"
  let validity0 := PyDict.getD d "validity"
    (PyVal.str (if PyVal.eqStr orderType "market" then "IOC" else "GTC"))
  let validity := if !(PyVal.eqStr orderType "market") && !(PyDict.getN d "validity").truthy
    then PyVal.str "GTC" else validity0
  let price0 := if PyVal.eqStr orderType "limit" && (PyDict.getN d "price").truthy
    then some (PyDict.getN d "price") else Option.none
  let stopPrice0 := if PyVal.eqStr orderType "stop" && (PyDict.getN d "stop_price").truthy
    then some (PyDict.getN d "stop_price") else Option.none
  let stopPrice := if PyVal.eqStr orderType "stop_limit" && (PyDict.getN d "stop_price").truthy
    then some (PyDict.getN d "stop_price") else stopPrice0
  let price := if PyVal.eqStr orderType "stop_limit" && (PyDict.getN d "stop_price").truthy
      && (PyDict.getN d "price").truthy
    then some (PyDict.getN d "price") else price0
  let stopLoss := if (PyDict.getN d "stop_loss").truthy
    then some (PyDict.getN d "stop_loss") else Option.none
  let stopLossType := if (PyDict.getN d "stop_loss").truthy && (PyDict.getN d "stop_loss_type").truthy
    then some (PyDict.getN d "stop_loss_type") else Option.none
  let takeProfit := if (PyDict.getN d "take_profit").truthy
    then some (PyDict.getN d "take_profit") else Option.none
  let takeProfitType := if (PyDict.getN d "take_profit").truthy && (PyDict.getN d "take_profit_type").truthy
    then some (PyDict.getN d "take_profit_type") else Option.none
  let trailing := if (PyDict.getN d "trailing_distance").truthy
    then some (PyDict.getN d "trailing_distance") else Option.none
  ⟨instrumentId, PyDict.getN d "quantity", PyDict.getN d "side", orderType, validity,
    price, stopPrice, stopLoss, stopLossType, takeProfit, takeProfitType, trailing⟩

/-- main.py 166-222 up to the upstream submission: resolve the symbol; an
unmatched symbol yields the error envelope and no parameter set is ever
built or submitted; otherwise the parameter set handed to
`tl_api.create_order`. -/
def createOrderPrepared (ts : String) (catalog : List Instrument) (d : PyDict) :
    Except PyDict OrderParams :=
  match resolveInstrumentVal catalog (PyDict.getN d "symbol") with
  | Option.none =>
      .error (errorResponse ts ("Instrument " ++ (PyDict.getN d "symbol").pyStr ++ " not found"))
  | some i => .ok (buildOrderParams (instrumentKey i) d)

/-- main.py 166-234: the whole service call, with the upstream
`tl_api.create_order` outcome supplied as a parameter (`.error e` models an
exception, surfaced as `str(e)` by the handler at 232-234).  The second
component records the parameter set submitted upstream, if any. -/
def createOrder (ts : String) (catalog : List Instrument)
    (upstream : Except String Int) (d : PyDict) : PyDict × Option OrderParams :=
  match createOrderPrepared ts catalog d with
  | .error env => (env, Option.none)
  | .ok params =>
      match upstream with
      | .error e => (errorResponse ts e, some params)
      | .ok oid =>
          ([("success", PyVal.bool true), ("order_id", PyVal.str (toString oid)),
            ("status", PyVal.str "created"),
            ("message", PyVal.str "Order created successfully"),
            ("timestamp", PyVal.str ts)], some params)

lemma eqStr_eq (v : PyVal) (s : String) (h : PyVal.eqStr v s = true) : v = PyVal.str s := by
  cases v <;> simp [PyVal.eqStr] at h
  simp [h]

/-- C6: resolution is exact, case-sensitive name equality — any resolved
instrument has exactly the requested name; a symbol matching no catalog name
yields the error envelope with no upstream submission; in particular
"BTCUSD" against a catalog holding only "BTCUSD.TTF". -/
theorem C6_exact_symbol_match :
    (∀ (catalog : List Instrument) (s : String) (i : Instrument),
      resolveInstrumentVal catalog (PyVal.str s) = some i → i.name = s ∧ i ∈ catalog) ∧
    (∀ (ts : String) (catalog : List Instrument) (d : PyDict) (s : String)
      (up : Except String Int),
      PyDict.getN d "symbol" = PyVal.str s →
      (∀ i ∈ catalog, i.name ≠ s) →
      createOrder ts catalog up d =
        (errorResponse ts ("Instrument " ++ s ++ " not found"), Option.none)) := by
  constructor
  · intro catalog s i h
    unfold resolveInstrumentVal at h
    cases hf : List.filter (fun i => PyVal.eqStr (PyVal.str s) i.name) catalog with
    | nil => rw [hf] at h; simp at h
    | cons a t =>
        rw [hf] at h
        simp [List.head?] at h
        have ha : a ∈ List.filter (fun i => PyVal.eqStr (PyVal.str s) i.name) catalog := by
          rw [hf]; exact List.mem_cons_self a t
        rcases List.mem_filter.mp ha with ⟨hmem, hp⟩
        subst h
        refine ⟨?_, hmem⟩
        simp [PyVal.eqStr] at hp
        exact hp.symm
  · intro ts catalog d s up hsym hnone
    have hfil : List.filter (fun i => PyVal.eqStr (PyVal.str s) i.name) catalog = [] := by
      rw [List.filter_eq_nil_iff]
      intro i hi
      simp [PyVal.eqStr]
      exact fun he => hnone i hi he.symm
    unfold createOrder createOrderPrepared resolveInstrumentVal
    rw [hsym, hfil]
    simp [PyVal.pyStr]

/-- Witness for C6: at a catalog holding only "BTCUSD.TTF", the symbol
"BTCUSD" yields the not-found envelope and nothing is submitted. -/
theorem C6_exact_symbol_match_witness :
    createOrder "T" [⟨"BTCUSD.TTF", some 7, 1⟩] (.ok 99)
      [("symbol", PyVal.str "BTCUSD"), ("order_type", PyVal.str "market"),
       ("side", PyVal.str "buy"), ("quantity", PyVal.num 1)] =
      (errorResponse "T" "Instrument BTCUSD not found", Option.none) :=
  C6_exact_symbol_match.2 "T" [⟨"BTCUSD.TTF", some 7, 1⟩] _ "BTCUSD" (.ok 99)
    (by rfl) (by decide)

/-- C4 counterexample: a market order whose dict carries the key "validity"
mapped to None — exactly what the HTTP layer produces for an omitted field —
is built with validity None: the claimed IOC default is not applied, because
`dict.get` only falls back to its default when the key is absent and the
fix-up at main.py 188-190 covers non-market orders only. -/
theorem C4_counterexample :
    (buildOrderParams 7
      [("symbol", PyVal.str "BTCUSD.TTF"), ("order_type", PyVal.str "market"),
       ("side", PyVal.str "buy"), ("quantity", PyVal.num 1),
       ("validity", PyVal.none)]).validity = PyVal.none ∧
    PyVal.none ≠ PyVal.str "IOC" :=
  ⟨rfl, fun h => PyVal.noConfusion h⟩

/-- C4 as amended: when the "validity" key is absent the default is IOC for
market and GTC otherwise; an explicit non-empty string validity always wins;
when the key is present mapped to None, a non-market order still gets GTC
(main.py 188-190) but a market order keeps validity None — no IOC default. -/
theorem C4_validity_defaults (d : PyDict) (i : Int) (v : String) :
    (PyDict.get? d "validity" = Option.none →
      (buildOrderParams i d).validity =
        PyVal.str (if PyVal.eqStr (PyDict.getN d "order_type") "market" then "IOC" else "GTC")) ∧
    (PyDict.get? d "validity" = some (PyVal.str v) → v ≠ "" →
      (buildOrderParams i d).validity = PyVal.str v) ∧
    (PyDict.get? d "validity" = some PyVal.none →
      PyVal.eqStr (PyDict.getN d "order_type") "market" = false →
      (buildOrderParams i d).validity = PyVal.str "GTC") ∧
    (PyDict.get? d "validity" = some PyVal.none →
      PyVal.eqStr (PyDict.getN d "order_type") "market" = true →
      (buildOrderParams i d).validity = PyVal.none) := by
  refine ⟨?_, ?_, ?_, ?_⟩
  · intro h
    by_cases hm : PyVal.eqStr ((PyDict.get? d "order_type").getD PyVal.none) "market" = true
    · simp [buildOrderParams, PyDict.getN, PyDict.getD, h, hm]
    · simp at hm
      simp [buildOrderParams, PyDict.getN, PyDict.getD, h, hm, PyVal.truthy]
  · intro h hv
    simp [buildOrderParams, PyDict.getN, PyDict.getD, h, PyVal.truthy, hv]
  · intro h hm
    simp only [PyDict.getN, PyDict.getD] at hm
    simp [buildOrderParams, PyDict.getN, PyDict.getD, h, hm, PyVal.truthy]
  · intro h hm
    simp only [PyDict.getN, PyDict.getD] at hm
    simp [buildOrderParams, PyDict.getN, PyDict.getD, h, hm, PyVal.truthy]

/-- Witness for the amended C4: the four regimes at concrete order dicts. -/
theorem C4_validity_defaults_witness :
    (buildOrderParams 7 [("order_type", PyVal.str "market")]).validity = PyVal.str "IOC" ∧
    (buildOrderParams 7 [("order_type", PyVal.str "limit")]).validity = PyVal.str "GTC" ∧
    (buildOrderParams 7
      [("order_type", PyVal.str "limit"), ("validity", PyVal.str "FOK")]).validity =
        PyVal.str "FOK" ∧
    (buildOrderParams 7
      [("order_type", PyVal.str "limit"), ("validity", PyVal.none)]).validity =
        PyVal.str "GTC" ∧
    (buildOrderParams 7
      [("order_type", PyVal.str "market"), ("validity", PyVal.none)]).validity =
        PyVal.none := by
  refine ⟨?_, ?_, ?_, ?_, ?_⟩
  · simpa using (C4_validity_defaults [("order_type", PyVal.str "market")] 7 "x").1 (by rfl)
  · simpa using (C4_validity_defaults [("order_type", PyVal.str "limit")] 7 "x").1 (by rfl)
  · exact (C4_validity_defaults _ 7 "FOK").2.1 (by rfl) (by decide)
  · exact (C4_validity_defaults _ 7 "x").2.2.1 (by rfl) (by rfl)
  · exact (C4_validity_defaults _ 7 "x").2.2.2 (by rfl) (by rfl)

/-- C5: each optional key of the parameter set is populated only from a
truthy (hence present, non-None, non-zero) input value, carried over
unchanged — never a null or zero placeholder; and a limit order whose price
is None is built without a price field. -/
theorem C5_optional_fields (i : Int) (d : PyDict) (v : PyVal) :
    ((buildOrderParams i d).price = some v →
      v = PyDict.getN d "price" ∧ v.truthy = true ∧ PyDict.containsKey d "price" = true) ∧
    ((buildOrderParams i d).stop_price = some v →
      v = PyDict.getN d "stop_price" ∧ v.truthy = true ∧
        PyDict.containsKey d "stop_price" = true) ∧
    ((buildOrderParams i d).stop_loss = some v →
      v = PyDict.getN d "stop_loss" ∧ v.truthy = true ∧
        PyDict.containsKey d "stop_loss" = true) ∧
    ((buildOrderParams i d).stop_loss_type = some v →
      v = PyDict.getN d "stop_loss_type" ∧ v.truthy = true ∧
        PyDict.containsKey d "stop_loss_type" = true) ∧
    ((buildOrderParams i d).take_profit = some v →
      v = PyDict.getN d "take_profit" ∧ v.truthy = true ∧
        PyDict.containsKey d "take_profit" = true) ∧
    ((buildOrderParams i d).take_profit_type = some v →
      v = PyDict.getN d "take_profit_type" ∧ v.truthy = true ∧
        PyDict.containsKey d "take_profit_type" = true) ∧
    ((buildOrderParams i d).trailing_distance = some v →
      v = PyDict.getN d "trailing_distance" ∧ v.truthy = true ∧
        PyDict.containsKey d "trailing_distance" = true) ∧
    (PyVal.eqStr (PyDict.getN d "order_type") "limit" = true →
      PyDict.get? d "price" = some PyVal.none →
      (buildOrderParams i d).price = Option.none) := by
  have hkey : ∀ k : String, (PyDict.getN d k).truthy = true → PyDict.containsKey d k = true := by
    intro k h
    unfold PyDict.getN PyDict.getD PyDict.containsKey at *
    cases hg : PyDict.get? d k with
    | none => rw [hg] at h; simp [PyVal.truthy] at h
    | some w => simp
  refine ⟨?_, ?_, ?_, ?_, ?_, ?_, ?_, ?_⟩
  · intro h
    dsimp only [buildOrderParams] at h
    split at h
    · rename_i hc
      simp only [Option.some.injEq] at h
      subst h
      have htr : (PyDict.getN d "price").truthy = true := by
        simp only [Bool.and_eq_true] at hc
        tauto
      exact ⟨rfl, htr, hkey _ htr⟩
    · split at h
      · rename_i hc
        simp only [Option.some.injEq] at h
        subst h
        have htr : (PyDict.getN d "price").truthy = true := by
          simp only [Bool.and_eq_true] at hc
          tauto
        exact ⟨rfl, htr, hkey _ htr⟩
      · simp at h
  · intro h
    dsimp only [buildOrderParams] at h
    split at h
    · rename_i hc
      simp only [Option.some.injEq] at h
      subst h
      have htr : (PyDict.getN d "stop_price").truthy = true := by
        simp only [Bool.and_eq_true] at hc
        tauto
      exact ⟨rfl, htr, hkey _ htr⟩
    · split at h
      · rename_i hc
        simp only [Option.some.injEq] at h
        subst h
        have htr : (PyDict.getN d "stop_price").truthy = true := by
          simp only [Bool.and_eq_true] at hc
          tauto
        exact ⟨rfl, htr, hkey _ htr⟩
      · simp at h
  · intro h
    dsimp only [buildOrderParams] at h
    split at h
    · rename_i hc
      simp only [Option.some.injEq] at h
      subst h
      have htr : (PyDict.getN d "stop_loss").truthy = true := hc
      exact ⟨rfl, htr, hkey _ htr⟩
    · simp at h
  · intro h
    dsimp only [buildOrderParams] at h
    split at h
    · rename_i hc
      simp only [Option.some.injEq] at h
      subst h
      have htr : (PyDict.getN d "stop_loss_type").truthy = true := by
        simp only [Bool.and_eq_true] at hc
        tauto
      exact ⟨rfl, htr, hkey _ htr⟩
    · simp at h
  · intro h
    dsimp only [buildOrderParams] at h
    split at h
    · rename_i hc
      simp only [Option.some.injEq] at h
      subst h
      have htr : (PyDict.getN d "take_profit").truthy = true := hc
      exact ⟨rfl, htr, hkey _ htr⟩
    · simp at h
  · intro h
    dsimp only [buildOrderParams] at h
    split at h
    · rename_i hc
      simp only [Option.some.injEq] at h
      subst h
      have htr : (PyDict.getN d "take_profit_type").truthy = true := by
        simp only [Bool.and_eq_true] at hc
        tauto
      exact ⟨rfl, htr, hkey _ htr⟩
    · simp at h
  · intro h
    dsimp only [buildOrderParams] at h
    split at h
    · rename_i hc
      simp only [Option.some.injEq] at h
      subst h
      have htr : (PyDict.getN d "trailing_distance").truthy = true := hc
      exact ⟨rfl, htr, hkey _ htr⟩
    · simp at h
  · intro hlim hp
    have hot : PyDict.getN d "order_type" = PyVal.str "limit" := eqStr_eq _ _ hlim
    have hpn : PyDict.getN d "price" = PyVal.none := by
      simp [PyDict.getN, PyDict.getD, hp]
    dsimp only [buildOrderParams]
    rw [hot, hpn]
    simp [PyVal.eqStr, PyVal.truthy]

/-- Witness for C5: a limit order with the price key mapped to None is built
without a price field. -/
theorem C5_optional_fields_witness :
    (buildOrderParams 7
      [("symbol", PyVal.str "BTCUSD.TTF"), ("order_type", PyVal.str "limit"),
       ("side", PyVal.str "buy"), ("quantity", PyVal.num 1),
       ("price", PyVal.none)]).price = Option.none :=
  (C5_optional_fields 7 _ PyVal.none).2.2.2.2.2.2.2 (by rfl) (by rfl)

/-- C10: the service path actually bound to the HTTP endpoints performs none
of the four validation steps — with all four keys present and the symbol
resolving, the prepared call always succeeds locally and forwards
order_type, side and quantity unchanged, whatever their values. -/
theorem C10_no_local_validation (ts : String) (catalog : List Instrument)
    (d : PyDict) (i : Instrument) (sv : String) (tv sdv qv : PyVal)
    (hsym : PyDict.get? d "symbol" = some (PyVal.str sv))
    (hot : PyDict.get? d "order_type" = some tv)
    (hsd : PyDict.get? d "side" = some sdv)
    (hq : PyDict.get? d "quantity" = some qv)
    (hres : resolveInstrumentVal catalog (PyVal.str sv) = some i) :
    createOrderPrepared ts catalog d = .ok (buildOrderParams (instrumentKey i) d) ∧
    (buildOrderParams (instrumentKey i) d).quantity = qv ∧
    (buildOrderParams (instrumentKey i) d).side = sdv ∧
    (buildOrderParams (instrumentKey i) d).type_ = tv := by
  have hs : PyDict.getN d "symbol" = PyVal.str sv := by simp [PyDict.getN, PyDict.getD, hsym]
  refine ⟨?_, ?_, ?_, ?_⟩
  · unfold createOrderPrepared
    rw [hs, hres]
  · simp [buildOrderParams, PyDict.getN, PyDict.getD, hq]
  · simp [buildOrderParams, PyDict.getN, PyDict.getD, hsd]
  · simp [buildOrderParams, PyDict.getN, PyDict.getD, hot]

/-- Witness for C10: an order with quantity −5, side "hold" and order_type
"bogus" is still prepared and forwarded unchanged. -/
theorem C10_no_local_validation_witness :
    createOrderPrepared "T" [⟨"X", Option.none, 3⟩]
      [("symbol", PyVal.str "X"), ("order_type", PyVal.str "bogus"),
       ("side", PyVal.str "hold"), ("quantity", PyVal.num (-5))] =
      .ok (buildOrderParams 3
        [("symbol", PyVal.str "X"), ("order_type", PyVal.str "bogus"),
         ("side", PyVal.str "hold"), ("quantity", PyVal.num (-5))]) ∧
    (buildOrderParams 3
      [("symbol", PyVal.str "X"), ("order_type", PyVal.str "bogus"),
       ("side", PyVal.str "hold"), ("quantity", PyVal.num (-5))]).quantity =
        PyVal.num (-5) := by
  have h := C10_no_local_validation "T" [⟨"X", Option.none, 3⟩]
    [("symbol", PyVal.str "X"), ("order_type", PyVal.str "bogus"),
     ("side", PyVal.str "hold"), ("quantity", PyVal.num (-5))]
    ⟨"X", Option.none, 3⟩ "X" (PyVal.str "bogus") (PyVal.str "hold") (PyVal.num (-5))
    (by rfl) (by rfl) (by rfl) (by rfl) (by rfl)
  exact ⟨h.1, h.2.1⟩

/-! ## Position closing (`TradeLockerService.close_position`, main.py 455-542) -/

/-- A position row as `close_position` uses it: id, side, quantity, average
price, whether the `routeId` column is present (main.py 475), and the
tradable instrument id used for the offsetting order. -/
structure PositionRec where
  id : Int
  side : String
  qty : ℚ
  avgPrice : ℚ
  hasRouteId : Bool
  tradableInstrumentId : Int
deriving Repr, DecidableEq

/-- The offsetting market order built at main.py 509-518: side flipped,
quantity `abs(qty)`, type market, validity IOC, same instrument, no other
keys. -/
def closeOrderParams (p : PositionRec) : OrderParams :=
  ⟨p.tradableInstrumentId, PyVal.num |p.qty|,
    PyVal.str (if p.side == "buy" then "sell" else "buy"),
    PyVal.str "market", PyVal.str "IOC",
    Option.none, Option.none, Option.none, Option.none, Option.none, Option.none,
    Option.none⟩

/-- The upstream interactions of one `close_position` call: the rows of the
first `get_all_positions`, the outcome of the native `tl_api.close_position`
call (`.error` models an exception, `.ok` its returned value, a string or
None), the rows of the re-query after the settle delay, and the outcome of
the offsetting `tl_api.create_order` submission. -/
structure CloseEnv where
  positions : List PositionRec
  directClose : Except String (Option String)
  positionsAfter : List PositionRec
  createOrder : Except String Int
deriving Repr

/-- main.py 455-542, with the upstream interactions supplied by `env` and
the path position id already parsed to an integer.  The first component is
the returned envelope; the second records the offsetting order submitted via
`tl_api.create_order` whenever the fallback path was reached (including when
that submission itself raised).  A raising re-query is not modelled: the
claims quantify over calls where both position queries return. -/
def closePosition (ts : String) (env : CloseEnv) (pid : Int) : PyDict × Option OrderParams :=
  match (env.positions.filter (fun p => p.id == pid)).head? with
  | Option.none =>
      (errorResponse ts ("Position " ++ toString pid ++ " not found"), Option.none)
  | some p =>
      let fallback : PyDict :=
        match env.createOrder with
        | .ok oid =>
            [("success", PyVal.bool true), ("order_id", PyVal.str (toString oid)),
             ("position_id", PyVal.str (toString pid)),
             ("status", PyVal.str "closed"),
             ("message", PyVal.str ("Position closed by creating opposite order " ++
               toString oid ++ " (original position remains for audit)")),
             ("timestamp", PyVal.str ts)]
        | .error e => errorResponse ts ("Failed to close position: " ++ e)
      if p.hasRouteId then
        match env.directClose with
        | .error _ => (fallback, some (closeOrderParams p))
        | .ok r =>
            if (env.positionsAfter.filter (fun q => q.id == pid)).isEmpty then
              ([("success", PyVal.bool true),
                ("order_id", PyVal.str (match r with
                  | some s => if s == "" then toString pid else s
                  | Option.none => toString pid)),
                ("position_id", PyVal.str (toString pid)),
                ("status", PyVal.str "closed"),
                ("message", PyVal.str "Position closed successfully"),
                ("timestamp", PyVal.str ts)], Option.none)
            else (fallback, some (closeOrderParams p))
      else (fallback, some (closeOrderParams p))

/-- C7: when the position exists, the direct close returns but the id is
still present in the re-query, the call falls through without erroring and
submits the offsetting market order (side flipped, quantity |qty|, validity
IOC, same instrument); on its success the envelope is success=true, status
"closed", with the original-position-remains-for-audit message, and when the
offsetting submission also fails the envelope is the error
"Failed to close position: {detail}". -/
theorem C7_close_position_fallback (ts : String) (env : CloseEnv) (pid : Int)
    (p : PositionRec)
    (hfind : (env.positions.filter (fun q => q.id == pid)).head? = some p)
    (hroute : p.hasRouteId = true) (r : Option String)
    (hdirect : env.directClose = .ok r)
    (hstill : (env.positionsAfter.filter (fun q => q.id == pid)).isEmpty = false) :
    (∀ oid : Int, env.createOrder = .ok oid →
      closePosition ts env pid =
        ([("success", PyVal.bool true), ("order_id", PyVal.str (toString oid)),
          ("position_id", PyVal.str (toString pid)),
          ("status", PyVal.str "closed"),
          ("message", PyVal.str ("Position closed by creating opposite order " ++
            toString oid ++ " (original position remains for audit)")),
          ("timestamp", PyVal.str ts)], some (closeOrderParams p))) ∧
    (∀ e : String, env.createOrder = .error e →
      closePosition ts env pid =
        (errorResponse ts ("Failed to close position: " ++ e),
         some (closeOrderParams p))) ∧
    (closeOrderParams p).side = PyVal.str (if p.side == "buy" then "sell" else "buy") ∧
    (closeOrderParams p).quantity = PyVal.num |p.qty| ∧
    (closeOrderParams p).type_ = PyVal.str "market" ∧
    (closeOrderParams p).validity = PyVal.str "IOC" ∧
    (closeOrderParams p).instrument_id = p.tradableInstrumentId := by
  refine ⟨?_, ?_, rfl, rfl, rfl, rfl, rfl⟩
  · intro oid hok
    simp [closePosition, hfind, hroute, hdirect, hstill, hok]
  · intro e herr
    simp [closePosition, hfind, hroute, hdirect, hstill, herr]

/-- Witness for C7: a concrete buy position of quantity 2 that survives the
direct close; with the offsetting submission succeeding the audit-caveat
success envelope is returned, and with it failing the error envelope is. -/
theorem C7_close_position_fallback_witness :
    closePosition "T"
      ⟨[⟨1, "buy", 2, 100, true, 7⟩], .ok Option.none, [⟨1, "buy", 2, 100, true, 7⟩], .ok 55⟩ 1 =
      ([("success", PyVal.bool true), ("order_id", PyVal.str "55"),
        ("position_id", PyVal.str "1"),
        ("status", PyVal.str "closed"),
        ("message", PyVal.str
          "Position closed by creating opposite order 55 (original position remains for audit)"),
        ("timestamp", PyVal.str "T")],
       some (closeOrderParams ⟨1, "buy", 2, 100, true, 7⟩)) ∧
    closePosition "T"
      ⟨[⟨1, "buy", 2, 100, true, 7⟩], .ok Option.none, [⟨1, "buy", 2, 100, true, 7⟩],
        .error "boom"⟩ 1 =
      (errorResponse "T" "Failed to close position: boom",
       some (closeOrderParams ⟨1, "buy", 2, 100, true, 7⟩)) := by
  constructor
  · exact (C7_close_position_fallback "T"
      ⟨[⟨1, "buy", 2, 100, true, 7⟩], .ok Option.none, [⟨1, "buy", 2, 100, true, 7⟩], .ok 55⟩
      1 ⟨1, "buy", 2, 100, true, 7⟩ (by rfl) (by rfl) Option.none (by rfl) (by rfl)).1
      55 (by rfl)
  · exact (C7_close_position_fallback "T"
      ⟨[⟨1, "buy", 2, 100, true, 7⟩], .ok Option.none, [⟨1, "buy", 2, 100, true, 7⟩],
        .error "boom"⟩
      1 ⟨1, "buy", 2, 100, true, 7⟩ (by rfl) (by rfl) Option.none (by rfl) (by rfl)).2.1
      "boom" (by rfl)

/-! ## The remaining outward operations (main.py 267-453) and their envelopes -/

/-- main.py 267-277 (`get_accounts`): a returning upstream call yields a
success dict with the payload and no timestamp key; an exception yields the
error envelope. -/
def getAccounts (ts : String) (upstream : Except String PyVal) : PyDict :=
  match upstream with
  | .ok accounts => [("success", PyVal.bool true), ("accounts", accounts)]
  | .error e => errorResponse ts e

/-- main.py 349-359 (`get_instruments`): same shape with key "instruments". -/
def getInstruments (ts : String) (upstream : Except String PyVal) : PyDict :=
  match upstream with
  | .ok instruments => [("success", PyVal.bool true), ("instruments", instruments)]
  | .error e => errorResponse ts e

/-- main.py 413-423 (`get_orders`): same shape with key "orders". -/
def getOrders (ts : String) (upstream : Except String PyVal) : PyDict :=
  match upstream with
  | .ok orders => [("success", PyVal.bool true), ("orders", orders)]
  | .error e => errorResponse ts e

/-- main.py 443-453 (`get_positions`): same shape with key "positions". -/
def getPositions (ts : String) (upstream : Except String PyVal) : PyDict :=
  match upstream with
  | .ok positions => [("success", PyVal.bool true), ("positions", positions)]
  | .error e => errorResponse ts e

/-- main.py 425-441 (`cancel_order`): a placeholder success envelope, with
timestamp. -/
def cancelOrder (ts : String) (orderId : String) : PyDict :=
  [("success", PyVal.bool true), ("order_id", PyVal.str orderId),
   ("status", PyVal.str "cancelled"),
   ("message", PyVal.str "Order cancelled successfully"),
   ("timestamp", PyVal.str ts)]

/-- main.py 361-411 (`get_current_price`): resolve the symbol by exact name
match; then either real market data (ask, bid) or — when the inner call
raises or the returned object lacks ask/bid — the estimated-price fallback.
All outcomes carry a timestamp. -/
def getCurrentPrice (ts : String) (catalog : List Instrument) (symbol : String)
    (marketData : Except String (Option (ℚ × ℚ))) : PyDict :=
  match resolveInstrumentVal catalog (PyVal.str symbol) with
  | Option.none => errorResponse ts ("Instrument " ++ symbol ++ " not found")
  | some i =>
      match marketData with
      | .ok (some (ask, bid)) =>
          [("success", PyVal.bool true), ("symbol", PyVal.str symbol),
           ("instrument_id", PyVal.num (i.id : ℚ)), ("ask_price", PyVal.num ask),
           ("bid_price", PyVal.num bid), ("timestamp", PyVal.str ts)]
      | _ =>
          [("success", PyVal.bool true), ("symbol", PyVal.str symbol),
           ("instrument_id", PyVal.num (i.id : ℚ)),
           ("ask_price", PyVal.num (114000 + 10)),
           ("bid_price", PyVal.num (114000 - 10)),
           ("timestamp", PyVal.str ts),
           ("note", PyVal.str "Estimated price - real market data not available")]

/-- An account row as `get_account_details` reads it (main.py 290, 310,
323-335). -/
structure Account where
  id : Int
  name : String
  currency : String
  accountBalance : ℚ
  status : String
deriving Repr, DecidableEq

/-- A position row rendered back by `to_dict('records')` for the response
payload. -/
def positionToPy (p : Position) : PyVal :=
  .dict ((match p.qty with | some q => [("qty", PyVal.num q)] | _ => []) ++
         (match p.avgPrice with | some a => [("avgPrice", PyVal.num a)] | _ => []) ++
         (match p.unrealizedPl with | some u => [("unrealizedPl", PyVal.num u)] | _ => []))

/-- main.py 279-347 (`get_account_details`) given the upstream outcomes of
the accounts and positions calls: errors surface as the error envelope, an
empty account list as "No accounts found", otherwise the success dict with
timestamp and the derived metrics of the first account. -/
def getAccountDetails (ts : String) (accounts : Except String (List Account))
    (positions : Except String (List Position)) : PyDict :=
  match accounts with
  | .error e => errorResponse ts e
  | .ok [] => errorResponse ts "No accounts found"
  | .ok (a :: _) =>
      match positions with
      | .error e => errorResponse ts e
      | .ok ps =>
          let m := deriveMetrics a.accountBalance ps
          [("success", PyVal.bool true), ("timestamp", PyVal.str ts),
           ("account_id", PyVal.num (a.id : ℚ)), ("account_name", PyVal.str a.name),
           ("currency", PyVal.str a.currency), ("balance", PyVal.num m.balance),
           ("equity", PyVal.num m.equity), ("margin_used", PyVal.num m.margin_used),
           ("margin_available", PyVal.num m.margin_available),
           ("margin_level", PyVal.num m.margin_level),
           ("free_margin", PyVal.num m.margin_available),
           ("total_positions_value", PyVal.num m.total_positions_value),
           ("unrealized_pnl", PyVal.num m.unrealized_pnl),
           ("positions_count", PyVal.num (ps.length : ℚ)),
           ("account_status", PyVal.str a.status),
           ("positions", PyVal.list (ps.map positionToPy))]

/-- C8 counterexample: the success response of `get_accounts` carries the
success flag but no timestamp key, refuting the every-outcome-has-a-
timestamp claim. -/
theorem C8_counterexample :
    PyDict.containsKey (getAccounts "T" (.ok (PyVal.list []))) "success" = true ∧
    PyDict.containsKey (getAccounts "T" (.ok (PyVal.list []))) "timestamp" = false := by
  constructor <;> rfl

/-- C8 as amended: every outcome of every modelled outward operation carries
the success flag, every failure is converted to the error envelope (success
false, error, timestamp) rather than escaping, and every outcome carries a
timestamp except the success responses of get_accounts, get_instruments,
get_orders and get_positions, which carry only the flag and the payload. -/
theorem C8_envelopes (ts e oid symbol : String) (v : PyVal) :
    (getAccounts ts (.error e) = errorResponse ts e) ∧
    (getAccounts ts (.ok v) = [("success", PyVal.bool true), ("accounts", v)]) ∧
    (getInstruments ts (.error e) = errorResponse ts e) ∧
    (getInstruments ts (.ok v) = [("success", PyVal.bool true), ("instruments", v)]) ∧
    (getOrders ts (.error e) = errorResponse ts e) ∧
    (getOrders ts (.ok v) = [("success", PyVal.bool true), ("orders", v)]) ∧
    (getPositions ts (.error e) = errorResponse ts e) ∧
    (getPositions ts (.ok v) = [("success", PyVal.bool true), ("positions", v)]) ∧
    (PyDict.containsKey (cancelOrder ts oid) "success" = true ∧
     PyDict.containsKey (cancelOrder ts oid) "timestamp" = true) ∧
    (∀ (catalog : List Instrument) (up : Except String Int) (d : PyDict),
      PyDict.containsKey (createOrder ts catalog up d).1 "success" = true ∧
      PyDict.containsKey (createOrder ts catalog up d).1 "timestamp" = true) ∧
    (∀ (env : CloseEnv) (pid : Int),
      PyDict.containsKey (closePosition ts env pid).1 "success" = true ∧
      PyDict.containsKey (closePosition ts env pid).1 "timestamp" = true) ∧
    (∀ (accounts : Except String (List Account)) (positions : Except String (List Position)),
      PyDict.containsKey (getAccountDetails ts accounts positions) "success" = true ∧
      PyDict.containsKey (getAccountDetails ts accounts positions) "timestamp" = true) ∧
    (∀ (catalog : List Instrument) (md : Except String (Option (ℚ × ℚ))),
      PyDict.containsKey (getCurrentPrice ts catalog symbol md) "success" = true ∧
      PyDict.containsKey (getCurrentPrice ts catalog symbol md) "timestamp" = true) := by
  refine ⟨rfl, rfl, rfl, rfl, rfl, rfl, rfl, rfl, ⟨rfl, rfl⟩, ?_, ?_, ?_, ?_⟩
  · intro catalog up d
    unfold createOrder createOrderPrepared
    cases resolveInstrumentVal catalog (PyDict.getN d "symbol") <;> cases up <;>
      simp [errorResponse, PyDict.containsKey, PyDict.get?]
  · intro env pid
    unfold closePosition
    cases (env.positions.filter (fun p => p.id == pid)).head? with
    | none => simp [errorResponse, PyDict.containsKey, PyDict.get?]
    | some p =>
        cases hr : p.hasRouteId <;> cases hd : env.directClose <;>
          cases hc : env.createOrder <;>
          simp [errorResponse, PyDict.containsKey, PyDict.get?, hr, hd, hc] <;>
          split <;> simp [errorResponse, PyDict.containsKey, PyDict.get?]
  · intro accounts positions
    cases accounts with
    | error e => simp [getAccountDetails, errorResponse, PyDict.containsKey, PyDict.get?]
    | ok l =>
        cases l with
        | nil => simp [getAccountDetails, errorResponse, PyDict.containsKey, PyDict.get?]
        | cons a t =>
            cases positions <;>
              simp [getAccountDetails, errorResponse, PyDict.containsKey, PyDict.get?]
  · intro catalog md
    unfold getCurrentPrice
    cases resolveInstrumentVal catalog (PyVal.str symbol) with
    | none => simp [errorResponse, PyDict.containsKey, PyDict.get?]
    | some i =>
        rcases md with e | md
        · simp [errorResponse, PyDict.containsKey, PyDict.get?]
        · rcases md with _ | ⟨ask, bid⟩ <;>
            simp [errorResponse, PyDict.containsKey, PyDict.get?]

/-! ## Audit logging (`TradeLockerService.log_order`, main.py 544-573) -/

/-- The OrderAuditRecord item built at main.py 554-567. -/
structure AuditItem where
  order_id : String
  user_id : PyVal
  symbol : PyVal
  order_type : PyVal
  side : PyVal
  quantity : PyVal
  price : PyVal
  status : String
  created_at : String
  updated_at : String
  stop_loss : PyVal
  take_profit : PyVal
deriving Repr

/-- main.py 544-573 (`log_order`) with the DynamoDB availability flag and
the outcome of `table.put_item` supplied.  When DynamoDB is unavailable
nothing is attempted; otherwise exactly one item is built and put
(first component), and a raising put is caught at 572-573, so the call
returns normally in every case (second component: whether an exception
escapes to the caller — always false).  The bare accesses
`order_data['symbol']` etc. assume those keys present, as `getN` models. -/
def logOrder (dynamoAvailable : Bool) (ts : String) (orderId : String)
    (d : PyDict) (status : String) (putFails : Bool) : Option AuditItem × Bool :=
  if !dynamoAvailable then (Option.none, false)
  else
    let item : AuditItem :=
      ⟨orderId, PyDict.getD d "user_id" (PyVal.str "default"), PyDict.getN d "symbol",
        PyDict.getN d "order_type", PyDict.getN d "side", PyDict.getN d "quantity",
        PyDict.getD d "price" (PyVal.num 0), status, ts, ts,
        PyDict.getD d "stop_loss" (PyVal.num 0), PyDict.getD d "take_profit" (PyVal.num 0)⟩
    (some item, false)

/-- The audit-store writes performed by `TradeLockerService.create_order`
(main.py 166-234): the method body contains no call to `log_order` and no
other DynamoDB access, on any path, so the list of writes is empty for
every input. -/
def createOrderAuditWrites (ts : String) (catalog : List Instrument)
    (upstream : Except String Int) (d : PyDict) : List AuditItem := []

/-- C9 counterexample: a successful order creation performs no audit write —
`log_order` has no call site in `create_order` (or anywhere else in the
service) — contradicting the claimed exactly-one OrderAuditRecord write. -/
theorem C9_counterexample :
    PyDict.getN
      (createOrder "T" [⟨"BTCUSD.TTF", some 7, 1⟩] (.ok 99)
        [("symbol", PyVal.str "BTCUSD.TTF"), ("order_type", PyVal.str "market"),
         ("side", PyVal.str "buy"), ("quantity", PyVal.num 1)]).1 "success" =
      PyVal.bool true ∧
    (createOrderAuditWrites "T" [⟨"BTCUSD.TTF", some 7, 1⟩] (.ok 99)
      [("symbol", PyVal.str "BTCUSD.TTF"), ("order_type", PyVal.str "market"),
       ("side", PyVal.str "buy"), ("quantity", PyVal.num 1)]).length = 0 := by
  constructor <;> rfl

/-- C9 as amended: `log_order`, when invoked with DynamoDB available, builds
exactly one OrderAuditRecord with the claimed fields, its outcome is
independent of the put failing, and it never raises to its caller; however
`TradeLockerService.create_order` never invokes it, so successful order
creation writes no audit record at all. -/
theorem C9_audit_logging (avail putFails : Bool) (ts oid st : String) (d : PyDict) :
    (logOrder avail ts oid d st putFails = logOrder avail ts oid d st false) ∧
    ((logOrder avail ts oid d st putFails).2 = false) ∧
    ((logOrder true ts oid d st putFails).1 =
      some ⟨oid, PyDict.getD d "user_id" (PyVal.str "default"), PyDict.getN d "symbol",
        PyDict.getN d "order_type", PyDict.getN d "side", PyDict.getN d "quantity",
        PyDict.getD d "price" (PyVal.num 0), st, ts, ts,
        PyDict.getD d "stop_loss" (PyVal.num 0),
        PyDict.getD d "take_profit" (PyVal.num 0)⟩) ∧
    (∀ (catalog : List Instrument) (up : Except String Int),
      createOrderAuditWrites ts catalog up d = []) := by
  refine ⟨rfl, ?_, rfl, fun _ _ => rfl⟩
  cases avail <;> rfl

end TL
